import Mathlib

/-
  Verification of the BeER manager service (grok-ai/BeER).

  Shallow embedding of src/beer/manager/api.py and src/beer/manager/service.py.
  The storage layer (beer.manager.beer_db), the request models (beer.models)
  and the orchestrator client are external to the provided sources; where a
  definition models one of those, its doc comment starts with
  "Modelled from the spec:" and names the missing piece.

  Python exceptions are made explicit: a handler returns
  ServiceState × Except PyExn ManagerAnswer, where PyExn covers the
  AttributeError raised when a handler references an undeclared ReturnCodes
  member, the pydantic ValidationError raised when ManagerAnswer is built
  without its required data field, and the storage layer's DoesNotExist fault.
-/

deriving instance DecidableEq for Except

namespace Beer

/-- PermissionLevel from api.py: OWNER = 0, ADMIN = 1, USER = 2 (Owner is the
strongest level, numerically smallest). -/
inductive PermissionLevel where
  | OWNER
  | ADMIN
  | USER
deriving DecidableEq, BEq, Repr

/-- The numeric value of each enum member (api.py lines 15-17). -/
def PermissionLevel.value : PermissionLevel → Nat
  | .OWNER => 0
  | .ADMIN => 1
  | .USER => 2

/-- list(PermissionLevel), in declaration order. -/
def PermissionLevel.levels : List PermissionLevel := [.OWNER, .ADMIN, .USER]

/-- list(PermissionLevel).index(self). -/
def PermissionLevel.index : PermissionLevel → Nat
  | .OWNER => 0
  | .ADMIN => 1
  | .USER => 2

/-- higher_permission from api.py lines 19-21:
permission = list(PermissionLevel)[max(0, list(PermissionLevel).index(self) - 1)].
The index max(0, i - 1) is always in range, so the getD default is never used
(Python would raise IndexError there). -/
def PermissionLevel.higher_permission (p : PermissionLevel) : PermissionLevel :=
  (PermissionLevel.levels.get? (max 0 (p.index - 1))).getD p

/-- Python str.lower() on one ASCII character. -/
def pyLowerChar (c : Char) : Char :=
  if 65 ≤ c.toNat ∧ c.toNat ≤ 90 then Char.ofNat (c.toNat + 32) else c

/-- Python str.lower() (the names involved are ASCII). -/
def pyLower (s : String) : String := String.mk (s.data.map pyLowerChar)

/-- Whether the first list is an initial segment of the second. -/
def leadsWith : List Char → List Char → Bool
  | [], _ => true
  | _ :: _, [] => false
  | a :: as, b :: bs => a == b && leadsWith as bs

/-- Whether needle occurs as a contiguous run inside the second list. -/
def containsSub (needle : List Char) : List Char → Bool
  | [] => needle.isEmpty
  | c :: t => leadsWith needle (c :: t) || containsSub needle t

/-- Python `needle in hay` on strings. -/
def pyIn (needle hay : String) : Bool := containsSub needle.data hay.data

/-- ReturnCodes from api.py lines 24-35: the ten members actually declared.
service.py also references READY, KEY_IN_USE_ERROR, RUNTIME_ERROR,
SET_KEY_SUCCESSFUL, KEY_CHECK and JOB_LIST, which are not members; evaluating
such a reference raises AttributeError, modelled by PyExn.attributeError. -/
inductive ReturnCodes where
  | DB_ERROR
  | PERMISSION_ERROR
  | ALREADY_REGISTERED_ERROR
  | NOT_REGISTERED_ERROR
  | KEY_MISSING_ERROR
  | WORKER_INFO
  | REGISTRATION_SUCCESSFUL
  | PERMISSION_OK
  | DISPATCH_OK
  | RESOURCES
deriving DecidableEq, BEq, Repr

/-- The Python enum member name of each code. -/
def ReturnCodes.name : ReturnCodes → String
  | .DB_ERROR => "DB_ERROR"
  | .PERMISSION_ERROR => "PERMISSION_ERROR"
  | .ALREADY_REGISTERED_ERROR => "ALREADY_REGISTERED_ERROR"
  | .NOT_REGISTERED_ERROR => "NOT_REGISTERED_ERROR"
  | .KEY_MISSING_ERROR => "KEY_MISSING_ERROR"
  | .WORKER_INFO => "WORKER_INFO"
  | .REGISTRATION_SUCCESSFUL => "REGISTRATION_SUCCESSFUL"
  | .PERMISSION_OK => "PERMISSION_OK"
  | .DISPATCH_OK => "DISPATCH_OK"
  | .RESOURCES => "RESOURCES"

/-- is_error from api.py lines 37-39: `"error" in self.name.lower()`. -/
def ReturnCodes.is_error (c : ReturnCodes) : Bool :=
  pyIn ("error") (pyLower c.name)

/-- Modelled from the spec: the error taxonomy of section 7 designates
DB_ERROR (StorageError), PERMISSION_ERROR, ALREADY_REGISTERED_ERROR,
NOT_REGISTERED_ERROR and KEY_MISSING_ERROR as failures among the declared
codes; the explicit per-code boolean tag the spec requires in sections 4.6
and 9, fixed at definition time. -/
def explicitErrorTag : ReturnCodes → Bool
  | .DB_ERROR => true
  | .PERMISSION_ERROR => true
  | .ALREADY_REGISTERED_ERROR => true
  | .NOT_REGISTERED_ERROR => true
  | .KEY_MISSING_ERROR => true
  | .WORKER_INFO => false
  | .REGISTRATION_SUCCESSFUL => false
  | .PERMISSION_OK => false
  | .DISPATCH_OK => false
  | .RESOURCES => false

/-- The Python exceptions that can escape a handler in service.py:
AttributeError from an undeclared ReturnCodes member, pydantic's
ValidationError when ManagerAnswer is constructed without its required
field, and the storage layer's DoesNotExist from Model.get_by_id. -/
inductive PyExn where
  | attributeError (member : String)
  | validationError (field : String)
  | doesNotExist (model : String)
deriving DecidableEq, BEq, Repr

/-- beer_db.Worker / beer.models.WorkerModel. Modelled from the spec:
hostname (key), external IP, root path for per-user volumes (section 3). -/
structure Worker where
  hostname : String
  external_ip : String
  volumes_root : String
deriving DecidableEq, BEq, Repr

/-- beer_db.GPU. Modelled from the spec: uuid (key), owning worker reference,
availability flag (section 3). -/
structure GPU where
  uuid : String
  worker : String
  available : Bool
deriving DecidableEq, BEq, Repr

/-- beer_db.User. Modelled from the spec: identity key, display name,
username, permission_level, optional public_ssh_key (section 3). A user is
registered exactly when a permission level has been assigned. -/
structure UserRec where
  id : String
  username : Option String
  full_name : String
  permission_level : Option PermissionLevel
  public_ssh_key : Option String
deriving DecidableEq, BEq, Repr

/-- A docker swarm node as seen through the orchestrator client
(attrs Status.State, Spec.Availability, Description.Hostname). -/
structure Node where
  hostname : String
  state : String
  availability : String
deriving DecidableEq, BEq, Repr

/-- A docker config (the per-user SSH-key secret). The backend-assigned id is
modelled as equal to the name. -/
structure Config where
  name : String
  content : String
  id : String
deriving DecidableEq, BEq, Repr

/-- docker.types.ConfigReference. -/
structure ConfigRef where
  config_id : String
  config_name : String
  filename : String
deriving DecidableEq, BEq, Repr

/-- The declarative workload descriptor built by dispatch
(client.services.create keyword arguments, service.py lines 195-213). -/
structure ServiceSpec where
  image : String
  name : String
  tty : Bool
  labels : List (String × String)
  constraints : List String
  env : List String
  configs : List ConfigRef
  mount : List String
deriving DecidableEq, BEq, Repr

/-- A value stored in a ManagerAnswer data mapping. -/
inductive PyValue where
  | str (s : String)
  | bool (b : Bool)
  | level (l : PermissionLevel)
  | worker (w : Worker)
  | service (s : ServiceSpec)
  | workersMap (m : List (String × Worker))
  | gpusMap (m : List (String × List GPU))
deriving DecidableEq, BEq, Repr

/-- ManagerAnswer from api.py lines 64-66: the two-field envelope. Both
fields are required by pydantic; a Python construction that omits data
raises ValidationError and is modelled as PyExn.validationError "data". -/
structure ManagerAnswer where
  code : ReturnCodes
  data : List (String × PyValue)
deriving DecidableEq, BEq, Repr

/-- beer.models.RequestUser. Modelled from the spec: the requesting identity
(opaque id, optional username, full name). -/
structure RequestUser where
  user_id : String
  username : Option String
  full_name : String
deriving DecidableEq, BEq, Repr

/-- The gpu entries of a job request; dispatch reads gpu["uuid"]. -/
structure GpuSpec where
  uuid : String
deriving DecidableEq, BEq, Repr

/-- beer.models.JobRequestModel. Modelled from the spec: worker hostname,
image, gpu list, duration hours, volume mount, user id (section 6). -/
structure JobRequestModel where
  user_id : String
  worker_hostname : String
  image : String
  gpus : List GpuSpec
  expected_duration : Nat
  volume_mount : String
deriving DecidableEq, BEq, Repr

/-- The registry state: User, Worker and GPU records. -/
structure DB where
  users : List UserRec
  workers : List Worker
  gpus : List GPU
deriving DecidableEq, BEq, Repr

/-- The orchestrator-side state reached through the docker client. -/
structure DockerState where
  configs : List Config
  services : List ServiceSpec
  nodes : List Node
deriving DecidableEq, BEq, Repr

/-- The whole state a handler can read or write. -/
structure ServiceState where
  db : DB
  docker : DockerState
deriving DecidableEq, BEq, Repr

/-- Registry lookup of a user record by id. -/
def DB.findUser (db : DB) (uid : String) : Option UserRec :=
  db.users.find? (fun u => u.id == uid)

/-- The stored permission level of a user (none when absent or unregistered). -/
def DB.storedLevel (db : DB) (uid : String) : Option PermissionLevel :=
  (db.findUser uid).bind (fun u => u.permission_level)

/-- The cached public SSH key of a user (none when absent or unset). -/
def DB.storedKey (db : DB) (uid : String) : Option String :=
  (db.findUser uid).bind (fun u => u.public_ssh_key)

/-- Modelled from the spec: upsertContactInfo (section 4.2) /
User.update_details — refreshes the caller's contact-info fields, creating
an unregistered record when absent; never touches permission level or key. -/
def DB.update_details (db : DB) (uid : String) (username : Option String)
    (full_name : String) : DB :=
  if (db.findUser uid).isSome then
    { db with users := db.users.map (fun u =>
        if u.id == uid then { u with username := username, full_name := full_name } else u) }
  else
    { db with users := db.users ++ [⟨uid, username, full_name, none, none⟩] }

/-- Modelled from the spec: isRegistered (section 4.2) / User.is_registered —
a user is registered when a permission level has been assigned. -/
def DB.is_registered (db : DB) (uid : String) : Bool :=
  match db.findUser uid with
  | some u => u.permission_level.isSome
  | none => false

/-- Modelled from the spec: listAdmins (section 4.2); section 4.1 reads the
result as the current set of Admin/Owner users. -/
def DB.get_admins (db : DB) : List UserRec :=
  db.users.filter (fun u =>
    u.permission_level == some PermissionLevel.OWNER
      || u.permission_level == some PermissionLevel.ADMIN)

/-- Modelled from the spec: User.permission_check — admit succeeds iff the
caller's stored level is numerically ≤ the required level (section 8); an
unregistered caller has no stored level and fails. The code passes
required_level.value, a Nat. -/
def DB.user_permission_check (db : DB) (uid : String) (required : Nat) : Bool :=
  match db.findUser uid with
  | some u =>
    match u.permission_level with
    | some l => decide (l.value ≤ required)
    | none => false
  | none => false

/-- Modelled from the spec: setPermission (section 4.2) / User.register —
upsert of the permission level, creating the record when absent. -/
def DB.register (db : DB) (uid : String) (lvl : PermissionLevel) : DB :=
  if (db.findUser uid).isSome then
    { db with users := db.users.map (fun u =>
        if u.id == uid then { u with permission_level := some lvl } else u) }
  else
    { db with users := db.users ++ [⟨uid, none, "", some lvl, none⟩] }

/-- user.save(only=[User.public_ssh_key]): single-field update of the cached
key on an existing record. -/
def DB.set_public_key (db : DB) (uid : String) (key : Option String) : DB :=
  { db with users := db.users.map (fun u =>
      if u.id == uid then { u with public_ssh_key := key } else u) }

/-- Registry lookup of a worker record by hostname. -/
def DB.findWorker (db : DB) (hostname : String) : Option Worker :=
  db.workers.find? (fun w => w.hostname == hostname)

/-- Modelled from the spec: registerWorker (section 4.2) / Worker.register —
upsert keyed by hostname, returning the current record. -/
def DB.register_worker (db : DB) (wm : Worker) : DB × Worker :=
  if (db.findWorker wm.hostname).isSome then
    ({ db with workers := db.workers.map (fun w =>
        if w.hostname == wm.hostname then wm else w) }, wm)
  else
    ({ db with workers := db.workers ++ [wm] }, wm)

/-- Modelled from the spec: User.get_by_id (peewee Model.get_by_id) — returns
the record, raising the storage layer's DoesNotExist fault when absent. -/
def DB.user_get_by_id (db : DB) (uid : String) : Except PyExn UserRec :=
  match db.findUser uid with
  | some u => .ok u
  | none => .error (.doesNotExist ("User"))

/-- Modelled from the spec: Worker.get_by_id (peewee Model.get_by_id) —
returns the record, raising DoesNotExist when the hostname is absent;
dispatch performs no handling of this fault. -/
def DB.worker_get_by_id (db : DB) (hostname : String) : Except PyExn Worker :=
  match db.findWorker hostname with
  | some w => .ok w
  | none => .error (.doesNotExist ("Worker"))

/-- Modelled from the spec: gpusByWorkers (section 4.2) / GPU.by_workers —
GPU inventory as a mapping Worker → sequence GPU, scoped to the given
hostname set. -/
def DB.gpus_by_workers (db : DB) (worker_ids : List String) : List (Worker × List GPU) :=
  db.workers.filterMap (fun w =>
    if w.hostname ∈ worker_ids then
      some (w, db.gpus.filter (fun g => g.worker == w.hostname))
    else none)

/-- client.configs.get by name (the code notes get works by name). -/
def findConfig (ds : DockerState) (name : String) : Option Config :=
  ds.configs.find? (fun c => c.name == name)

/-- Whether a config is referenced by a service: removal then fails with the
docker APIError whose explanation contains "in use by the following service". -/
def configInUse (ds : DockerState) (name : String) : Bool :=
  ds.services.any (fun svc => svc.configs.any (fun cr => cr.config_name == name))

/-- docker_config.remove(). -/
def removeConfig (ds : DockerState) (name : String) : DockerState :=
  { ds with configs := ds.configs.filter (fun c => !(c.name == name)) }

/-- client.configs.create(name=..., data=...); the backend id is modelled as
the name itself. -/
def createConfig (ds : DockerState) (name content : String) : DockerState × Config :=
  let cfg : Config := ⟨name, content, name⟩
  ({ ds with configs := ds.configs ++ [cfg] }, cfg)

/-- A naive Python datetime, to second resolution (dispatch never uses
sub-second fields of the clock it reads). -/
structure DateTime where
  year : Nat
  month : Nat
  day : Nat
  hour : Nat
  minute : Nat
  second : Nat
deriving DecidableEq, BEq, Repr

/-- The ASCII digit character of d (for d < 10). -/
def digChar (d : Nat) : Char := Char.ofNat (48 + d)

/-- The digit value of an ASCII digit character. -/
def charDigit (c : Char) : Nat := c.toNat - 48

/-- Whether a character is an ASCII digit. -/
def isDigitChar (c : Char) : Bool := 48 ≤ c.toNat && c.toNat ≤ 57

/-- Zero-padded two-digit rendering (Python %m, %d, %H, %M, %S for values
below 100). -/
def pad2 (n : Nat) : List Char := [digChar (n / 10), digChar (n % 10)]

/-- Zero-padded four-digit rendering (Python %Y for years below 10000,
the full range of Python datetime). -/
def pad4 (n : Nat) : List Char :=
  [digChar (n / 1000), digChar (n / 100 % 10), digChar (n / 10 % 10), digChar (n % 10)]

/-- strftime("%m%d%Y%H%M%S") from service.py lines 197 and 199: the
fixed-width 14-character timestamp used for the service name and the expiry
label. -/
def DateTime.strftime_mdYHMS (d : DateTime) : String :=
  String.mk (pad2 d.month ++ pad2 d.day ++ pad4 d.year
    ++ pad2 d.hour ++ pad2 d.minute ++ pad2 d.second)

/-- The numeric value of a two-digit string. -/
def decode2 (a b : Char) : Nat := charDigit a * 10 + charDigit b

/-- The numeric value of a four-digit string. -/
def decode4 (a b c d : Char) : Nat :=
  charDigit a * 1000 + charDigit b * 100 + charDigit c * 10 + charDigit d

/-- The decoder of the "%m%d%Y%H%M%S" encoding (strptime with the same
format): accepts exactly the 14-digit strings and recovers the instant to
second resolution. -/
def parseTimestamp (s : String) : Option DateTime :=
  match s.data with
  | [m1, m2, d1, d2, y1, y2, y3, y4, h1, h2, mi1, mi2, s1, s2] =>
    if [m1, m2, d1, d2, y1, y2, y3, y4, h1, h2, mi1, mi2, s1, s2].all isDigitChar then
      some ⟨decode4 y1 y2 y3 y4, decode2 m1 m2, decode2 d1 d2,
            decode2 h1 h2, decode2 mi1 mi2, decode2 s1 s2⟩
    else none
  | _ => none

/-- All fields narrow enough for the fixed-width rendering to be faithful. -/
def DateTime.widthBounded (d : DateTime) : Prop :=
  d.month < 100 ∧ d.day < 100 ∧ d.year < 10000
    ∧ d.hour < 100 ∧ d.minute < 100 ∧ d.second < 100

/-- Gregorian leap year. -/
def isLeap (y : Nat) : Bool := (y % 4 == 0 && y % 100 != 0) || y % 400 == 0

/-- Days in a Gregorian month (months are 1-based; only 1..12 are used). -/
def daysInMonth (y m : Nat) : Nat :=
  if m == 2 then (if isLeap y then 29 else 28)
  else if m == 4 || m == 6 || m == 9 || m == 11 then 30
  else 31

/-- A real calendar datetime (Python datetime invariants, without the year
9999 ceiling, which is tracked separately). -/
def DateTime.valid (d : DateTime) : Prop :=
  1 ≤ d.year ∧ 1 ≤ d.month ∧ d.month ≤ 12 ∧ 1 ≤ d.day
    ∧ d.day ≤ daysInMonth d.year d.month ∧ d.hour < 24 ∧ d.minute < 60 ∧ d.second < 60

/-- Advance a calendar date by one day. -/
def nextDay (d : DateTime) : DateTime :=
  if d.day < daysInMonth d.year d.month then { d with day := d.day + 1 }
  else if d.month < 12 then { d with month := d.month + 1, day := 1 }
  else { d with year := d.year + 1, month := 1, day := 1 }

/-- Advance a calendar date by n days. -/
def addDays : DateTime → Nat → DateTime
  | d, 0 => d
  | d, n + 1 => addDays (nextDay d) n

/-- datetime + timedelta(hours=h) on a naive datetime: whole-hour addition
with day rollover (service.py line 188). -/
def DateTime.addHours (d : DateTime) (h : Nat) : DateTime :=
  let t := d.hour + h
  addDays { d with hour := t % 24 } (t / 24)

/-- The outcome of permission_check from service.py lines 68-82.
None models Python's implicit None return (admission granted);
the NOT_REGISTERED_ERROR branch returns an answer; the PERMISSION_ERROR
branch constructs ManagerAnswer without the required data field
(line 80-82), which pydantic rejects with ValidationError. The contact-info
upsert at line 69 happens before any branch. -/
def permission_check (s : ServiceState) (ru : RequestUser)
    (required_level : PermissionLevel) :
    ServiceState × Except PyExn (Option ManagerAnswer) :=
  let db := s.db.update_details ru.user_id ru.username ru.full_name
  let s' := { s with db := db }
  if required_level == PermissionLevel.USER && !(db.is_registered ru.user_id) then
    (s', .ok (some ⟨.NOT_REGISTERED_ERROR, [("admins", .str (formatAdmins db))]⟩))
  else if !(db.user_permission_check ru.user_id required_level.value) then
    (s', .error (.validationError ("data")))
  else
    (s', .ok none)
where
  /-- The remediation hint of service.py lines 74-76: the usernames of the
  Admin/Owner users that have one, each rendered "- @name", joined by
  newlines. -/
  formatAdmins (db : DB) : String :=
    String.intercalate ("\n")
      ((db.get_admins.filterMap (fun u => u.username)).map (fun n => "- @" ++ n))

/-- /ready from service.py lines 53-55: evaluates ReturnCodes.READY, which
is not a member, so AttributeError is raised before any envelope is built. -/
def is_ready (s : ServiceState) : ServiceState × Except PyExn ManagerAnswer :=
  (s, .error (.attributeError ("READY")))

/-- /join from service.py lines 58-65: overwrites external_ip with the
caller's address and upserts the worker record; no permission check exists
in this handler. The DBError branch is unreachable in the in-memory model. -/
def add_worker (s : ServiceState) (wm : Worker) (client_host : String) :
    ServiceState × Except PyExn ManagerAnswer :=
  let wm := { wm with external_ip := client_host }
  let (db, w) := s.db.register_worker wm
  ({ s with db := db }, .ok ⟨.WORKER_INFO, [("info", .worker w)]⟩)

/-- /set_permission from service.py lines 85-104. The guard at line 89 is
`if not permission_check(...)`: Python's None (admission granted) is falsy,
so the PERMISSION_ERROR arm fires exactly when the check PASSES, while a
truthy failure answer (only producible when the required level is USER)
falls through to the registration code. An exception inside the check
propagates. The DB_ERROR branch is unreachable in the in-memory model. -/
def set_permission (s : ServiceState) (ru : RequestUser) (user_id : String)
    (permission_level : PermissionLevel) :
    ServiceState × Except PyExn ManagerAnswer :=
  match permission_check s ru permission_level.higher_permission with
  | (s, .error e) => (s, .error e)
  | (s, .ok none) => (s, .ok ⟨.PERMISSION_ERROR, []⟩)
  | (s, .ok (some _)) =>
    if !(s.db.is_registered user_id) then
      (s, .ok ⟨.NOT_REGISTERED_ERROR, [("user_id", .str user_id)]⟩)
    else
      ({ s with db := s.db.register user_id permission_level },
       .ok ⟨.REGISTRATION_SUCCESSFUL,
            [("user_id", .str user_id), ("permission_level", .level permission_level)]⟩)

/-- /register_user from service.py lines 107-122: ADMIN-gated via the
`is not None` pattern; registers the target at USER level. The DB_ERROR
branch is unreachable in the in-memory model. -/
def register_user (s : ServiceState) (ru : RequestUser) (user_id : String) :
    ServiceState × Except PyExn ManagerAnswer :=
  match permission_check s ru PermissionLevel.ADMIN with
  | (s, .error e) => (s, .error e)
  | (s, .ok (some a)) => (s, .ok a)
  | (s, .ok none) =>
    if s.db.is_registered user_id then
      (s, .ok ⟨.ALREADY_REGISTERED_ERROR, [("user_id", .str user_id)]⟩)
    else
      ({ s with db := s.db.register user_id PermissionLevel.USER },
       .ok ⟨.REGISTRATION_SUCCESSFUL, [("user_id", .str user_id)]⟩)

/-- /set_ssh_key from service.py lines 125-159. After the USER gate:
remove any existing config (absence passes; an in-use config hits the
KEY_IN_USE_ERROR reference, an undeclared member, so AttributeError);
create the new config; the defensive name check hits RUNTIME_ERROR
(undeclared, AttributeError); on the success path the key is persisted to
the User record and then the SET_KEY_SUCCESSFUL reference (undeclared)
raises AttributeError instead of returning the success envelope. -/
def set_ssh_key (s : ServiceState) (ru : RequestUser) (ssh_key : String) :
    ServiceState × Except PyExn ManagerAnswer :=
  match permission_check s ru PermissionLevel.USER with
  | (s, .error e) => (s, .error e)
  | (s, .ok (some a)) => (s, .ok a)
  | (s, .ok none) =>
    match s.db.user_get_by_id ru.user_id with
    | .error e => (s, .error e)
    | .ok user =>
      let config_name := "beer_ssh-key_" ++ user.id
      let proceed : ServiceState → ServiceState × Except PyExn ManagerAnswer :=
        fun s =>
          let (ds, cfg) := createConfig s.docker config_name ssh_key
          let s := { s with docker := ds }
          if !(cfg.name == config_name) then
            (s, .error (.attributeError ("RUNTIME_ERROR")))
          else
            let s := { s with db := s.db.set_public_key user.id (some ssh_key) }
            (s, .error (.attributeError ("SET_KEY_SUCCESSFUL")))
      match findConfig s.docker config_name with
      | some cfg =>
        if configInUse s.docker cfg.name then
          (s, .error (.attributeError ("KEY_IN_USE_ERROR")))
        else
          proceed { s with docker := removeConfig s.docker cfg.name }
      | none => proceed s

/-- /check_ssh_key from service.py lines 162-171: after the USER gate it
evaluates ReturnCodes.KEY_CHECK, an undeclared member, so AttributeError is
raised instead of the is_set report. -/
def check_ssh_key (s : ServiceState) (ru : RequestUser) :
    ServiceState × Except PyExn ManagerAnswer :=
  match permission_check s ru PermissionLevel.USER with
  | (s, .error e) => (s, .error e)
  | (s, .ok (some a)) => (s, .ok a)
  | (s, .ok none) =>
    match s.db.user_get_by_id ru.user_id with
    | .error e => (s, .error e)
    | .ok _user => (s, .error (.attributeError ("KEY_CHECK")))

/-- /job from service.py lines 174-216. After the USER gate: resolve the
worker (no absence handling: DoesNotExist propagates), resolve the target
user, check the cached key (the KEY_MISSING_ERROR answers at lines 184 and
193 omit the required data field, so pydantic raises ValidationError),
compute the expiry, and submit the workload descriptor. -/
def dispatch (s : ServiceState) (ru : RequestUser) (job : JobRequestModel)
    (now : DateTime) : ServiceState × Except PyExn ManagerAnswer :=
  match permission_check s ru PermissionLevel.USER with
  | (s, .error e) => (s, .error e)
  | (s, .ok (some a)) => (s, .ok a)
  | (s, .ok none) =>
    match s.db.worker_get_by_id job.worker_hostname with
    | .error e => (s, .error e)
    | .ok worker =>
      match s.db.user_get_by_id job.user_id with
      | .error e => (s, .error e)
      | .ok user =>
        if user.public_ssh_key.isNone then
          (s, .error (.validationError ("data")))
        else
          let expire := now.addHours job.expected_duration
          match findConfig s.docker ("beer_ssh-key_" ++ user.id) with
          | none => (s, .error (.validationError ("data")))
          | some cfg =>
            let svc : ServiceSpec :=
              ⟨job.image,
               job.user_id ++ "_" ++ now.strftime_mdYHMS,
               true,
               [("beer.user_id", job.user_id), ("beer.expire", expire.strftime_mdYHMS)],
               ["node.hostname==" ++ worker.hostname],
               job.gpus.map (fun g => "DOCKER_RESOURCE_GPU=" ++ g.uuid),
               [⟨cfg.id, cfg.name, "/root/.ssh/authorized_keys"⟩],
               [worker.volumes_root ++ "/" ++ user.id ++ ":" ++ job.volume_mount ++ ":rw"]⟩
            ({ s with docker := { s.docker with services := s.docker.services ++ [svc] } },
             .ok ⟨.DISPATCH_OK, [("service.attrs", .service svc)]⟩)

/-- /job_list from service.py lines 219-234: after the USER gate and the
label-filtered listing it evaluates ReturnCodes.JOB_LIST, an undeclared
member, so AttributeError is raised instead of the listing envelope. -/
def job_list (s : ServiceState) (ru : RequestUser) :
    ServiceState × Except PyExn ManagerAnswer :=
  match permission_check s ru PermissionLevel.USER with
  | (s, .error e) => (s, .error e)
  | (s, .ok (some a)) => (s, .ok a)
  | (s, .ok none) =>
    match s.db.user_get_by_id ru.user_id with
    | .error e => (s, .error e)
    | .ok user =>
      let _services := s.docker.services.filter (fun svc =>
        List.lookup ("beer.user_id") svc.labels == some user.id)
      (s, .error (.attributeError ("JOB_LIST")))

/-- The hostnames of the worker-role nodes reporting ready + active
(service.py lines 244-251). -/
def onlineHostnames (nodes : List Node) : List String :=
  (nodes.filter (fun n => n.state == "ready" && n.availability == "active")).map
    (fun n => n.hostname)

/-- /list_resources from service.py lines 237-264: after the USER gate the
only_online/only_available flags are never read; the inventory is scoped to
the ready + active nodes. -/
def list_resources (s : ServiceState) (ru : RequestUser)
    (only_online only_available : Bool) :
    ServiceState × Except PyExn ManagerAnswer :=
  match permission_check s ru PermissionLevel.USER with
  | (s, .error e) => (s, .error e)
  | (s, .ok (some a)) => (s, .ok a)
  | (s, .ok none) =>
    let resources := s.db.gpus_by_workers (onlineHostnames s.docker.nodes)
    (s, .ok ⟨.RESOURCES,
      [("workers", .workersMap (resources.map (fun p => (p.1.hostname, p.1)))),
       ("gpus", .gpusMap (resources.map (fun p => (p.1.hostname, p.2))))]⟩)

/-- The contact-info rewrite of one record preserves the id, so a find?
by id commutes with it. -/
theorem find?_contact_map (uid : String) (un : Option String) (fn : String)
    (uid' : String) (l : List UserRec) :
    (l.map (fun u => if u.id == uid then { u with username := un, full_name := fn } else u)).find?
        (fun u => u.id == uid')
      = (l.find? (fun u => u.id == uid')).map
          (fun u => if u.id == uid then { u with username := un, full_name := fn } else u) := by
  rw [List.find?_map]
  have hp : ((fun u : UserRec => u.id == uid')
        ∘ (fun u => if u.id == uid then { u with username := un, full_name := fn } else u))
      = (fun u : UserRec => u.id == uid') := by
    funext u
    by_cases h : (u.id == uid) = true <;> simp [Function.comp, h]
  rw [hp]

/-- The contact-info upsert never changes a stored permission level. -/
theorem DB.storedLevel_update_details (db : DB) (uid : String) (un : Option String)
    (fn : String) (uid' : String) :
    (db.update_details uid un fn).storedLevel uid' = db.storedLevel uid' := by
  unfold DB.update_details DB.storedLevel DB.findUser
  split
  · rw [find?_contact_map]
    cases h : db.users.find? (fun u => u.id == uid') with
    | none => rfl
    | some u =>
      dsimp only [Option.map, Option.bind]
      split <;> rfl
  · rw [List.find?_append]
    cases h : db.users.find? (fun u => u.id == uid') with
    | none =>
      simp only [Option.none_or]
      by_cases h2 : (uid == uid') = true <;>
        simp [List.find?_cons, List.find?_nil, h2]
    | some u => simp [Option.or_some]

/-- The contact-info upsert never changes a cached key. -/
theorem DB.storedKey_update_details (db : DB) (uid : String) (un : Option String)
    (fn : String) (uid' : String) :
    (db.update_details uid un fn).storedKey uid' = db.storedKey uid' := by
  unfold DB.update_details DB.storedKey DB.findUser
  split
  · rw [find?_contact_map]
    cases h : db.users.find? (fun u => u.id == uid') with
    | none => rfl
    | some u =>
      dsimp only [Option.map, Option.bind]
      split <;> rfl
  · rw [List.find?_append]
    cases h : db.users.find? (fun u => u.id == uid') with
    | none =>
      simp only [Option.none_or]
      by_cases h2 : (uid == uid') = true <;>
        simp [List.find?_cons, List.find?_nil, h2]
    | some u => simp [Option.or_some]

/-- The contact-info upsert touches no worker record. -/
theorem DB.update_details_workers (db : DB) (uid : String) (un : Option String)
    (fn : String) : (db.update_details uid un fn).workers = db.workers := by
  unfold DB.update_details
  split <;> rfl

/-- The contact-info upsert touches no GPU record. -/
theorem DB.update_details_gpus (db : DB) (uid : String) (un : Option String)
    (fn : String) : (db.update_details uid un fn).gpus = db.gpus := by
  unfold DB.update_details
  split <;> rfl

/-- Registration status is the stored level being present. -/
theorem DB.is_registered_eq (db : DB) (uid : String) :
    db.is_registered uid = (db.storedLevel uid).isSome := by
  unfold DB.is_registered DB.storedLevel
  cases db.findUser uid <;> rfl

/-- The storage-level admission test in terms of the stored level. -/
theorem DB.user_permission_check_eq (db : DB) (uid : String) (req : Nat) :
    db.user_permission_check uid req
      = match db.storedLevel uid with
        | some l => decide (l.value ≤ req)
        | none => false := by
  unfold DB.user_permission_check DB.storedLevel
  cases db.findUser uid with
  | none => rfl
  | some u => cases u.permission_level <;> rfl

/-- A found user record carries the looked-up id. -/
theorem DB.findUser_id (db : DB) (uid : String) (u : UserRec)
    (h : db.findUser uid = some u) : u.id = uid := by
  unfold DB.findUser at h
  have := List.find?_some h
  exact eq_of_beq this

/-- The state component of the permission check is always the contact-info
upsert, whatever the outcome. -/
theorem permission_check_fst (s : ServiceState) (ru : RequestUser)
    (lvl : PermissionLevel) :
    (permission_check s ru lvl).1
      = { s with db := s.db.update_details ru.user_id ru.username ru.full_name } := by
  dsimp only [permission_check]
  split
  · rfl
  · split <;> rfl

/-- The check admits the caller (returns Python None) exactly when the
caller has a stored level at most the required one. -/
theorem permission_check_ok_none_iff (s : ServiceState) (ru : RequestUser)
    (lvl : PermissionLevel) :
    (permission_check s ru lvl).2 = Except.ok none
      ↔ ∃ l, s.db.storedLevel ru.user_id = some l ∧ l.value ≤ lvl.value := by
  have hlev := DB.storedLevel_update_details s.db ru.user_id ru.username ru.full_name
    ru.user_id
  dsimp only [permission_check]
  split
  · rename_i hc
    rw [Bool.and_eq_true, Bool.not_eq_true'] at hc
    rw [DB.is_registered_eq, hlev] at hc
    constructor
    · intro h
      simp at h
    · rintro ⟨l, hl, _⟩
      rw [hl] at hc
      simp at hc
  · split
    · rename_i hc hd
      rw [Bool.not_eq_true'] at hd
      rw [DB.user_permission_check_eq, hlev] at hd
      constructor
      · intro h
        simp at h
      · rintro ⟨l, hl, hle⟩
        rw [hl] at hd
        simp only [decide_eq_false_iff_not] at hd
        omega
    · rename_i hc hd
      rw [Bool.not_eq_true, Bool.not_eq_false'] at hd
      rw [DB.user_permission_check_eq, hlev] at hd
      constructor
      · intro _
        cases hsl : s.db.storedLevel ru.user_id with
        | none => rw [hsl] at hd; simp at hd
        | some l =>
          rw [hsl] at hd
          simp only [decide_eq_true_eq] at hd
          exact ⟨l, rfl, hd⟩
      · intro _
        rfl

/-- Only the USER-level gate can fail by returning an answer; every other
failure raises. -/
theorem permission_check_some_eq_USER (s : ServiceState) (ru : RequestUser)
    (lvl : PermissionLevel) (s' : ServiceState) (a : ManagerAnswer)
    (h : permission_check s ru lvl = (s', Except.ok (some a))) :
    lvl = PermissionLevel.USER := by
  dsimp only [permission_check] at h
  split at h
  · rename_i hc
    rw [Bool.and_eq_true] at hc
    have h1 := hc.1
    cases lvl
    · exact absurd h1 (by decide)
    · exact absurd h1 (by decide)
    · rfl
  · split at h <;> simp at h

/-- Digit characters decode back to their digit. -/
theorem charDigit_digChar (k : Nat) (hk : k < 10) : charDigit (digChar k) = k := by
  interval_cases k <;> decide

/-- Digit characters pass the digit test. -/
theorem isDigitChar_digChar (k : Nat) (hk : k < 10) : isDigitChar (digChar k) = true := by
  interval_cases k <;> decide

/-- Two-digit round trip. -/
theorem decode2_pad2 (n : Nat) (h : n < 100) :
    decode2 (digChar (n / 10)) (digChar (n % 10)) = n := by
  have h1 : n / 10 < 10 := by omega
  have h2 : n % 10 < 10 := by omega
  unfold decode2
  rw [charDigit_digChar _ h1, charDigit_digChar _ h2]
  omega

/-- Four-digit round trip. -/
theorem decode4_pad4 (n : Nat) (h : n < 10000) :
    decode4 (digChar (n / 1000)) (digChar (n / 100 % 10)) (digChar (n / 10 % 10))
      (digChar (n % 10)) = n := by
  have h1 : n / 1000 < 10 := by omega
  have h2 : n / 100 % 10 < 10 := by omega
  have h3 : n / 10 % 10 < 10 := by omega
  have h4 : n % 10 < 10 := by omega
  unfold decode4
  rw [charDigit_digChar _ h1, charDigit_digChar _ h2, charDigit_digChar _ h3,
    charDigit_digChar _ h4]
  omega

/-- The "%m%d%Y%H%M%S" encoding is lossless: decoding the rendered
timestamp recovers the instant, to the encoding's second resolution. -/
theorem parseTimestamp_strftime (d : DateTime) (h : d.widthBounded) :
    parseTimestamp d.strftime_mdYHMS = some d := by
  obtain ⟨hm, hd, hy, hh, hmi, hs⟩ := h
  have e1 : d.month / 10 < 10 := by omega
  have e2 : d.month % 10 < 10 := by omega
  have e3 : d.day / 10 < 10 := by omega
  have e4 : d.day % 10 < 10 := by omega
  have e5 : d.year / 1000 < 10 := by omega
  have e6 : d.year / 100 % 10 < 10 := by omega
  have e7 : d.year / 10 % 10 < 10 := by omega
  have e8 : d.year % 10 < 10 := by omega
  have e9 : d.hour / 10 < 10 := by omega
  have e10 : d.hour % 10 < 10 := by omega
  have e11 : d.minute / 10 < 10 := by omega
  have e12 : d.minute % 10 < 10 := by omega
  have e13 : d.second / 10 < 10 := by omega
  have e14 : d.second % 10 < 10 := by omega
  show parseTimestamp (String.mk (pad2 d.month ++ pad2 d.day ++ pad4 d.year
    ++ pad2 d.hour ++ pad2 d.minute ++ pad2 d.second)) = some d
  dsimp only [pad2, pad4, parseTimestamp, List.cons_append, List.nil_append]
  rw [List.all_cons, List.all_cons, List.all_cons, List.all_cons, List.all_cons,
    List.all_cons, List.all_cons, List.all_cons, List.all_cons, List.all_cons,
    List.all_cons, List.all_cons, List.all_cons, List.all_cons, List.all_nil]
  rw [isDigitChar_digChar _ e1, isDigitChar_digChar _ e2, isDigitChar_digChar _ e3,
    isDigitChar_digChar _ e4, isDigitChar_digChar _ e5, isDigitChar_digChar _ e6,
    isDigitChar_digChar _ e7, isDigitChar_digChar _ e8, isDigitChar_digChar _ e9,
    isDigitChar_digChar _ e10, isDigitChar_digChar _ e11, isDigitChar_digChar _ e12,
    isDigitChar_digChar _ e13, isDigitChar_digChar _ e14]
  simp only [Bool.true_and, if_true]
  rw [decode4_pad4 _ hy, decode2_pad2 _ hm, decode2_pad2 _ hd, decode2_pad2 _ hh,
    decode2_pad2 _ hmi, decode2_pad2 _ hs]

/-- Every month length is at most 31 days. -/
theorem daysInMonth_le (y m : Nat) : daysInMonth y m ≤ 31 := by
  unfold daysInMonth
  split_ifs <;> omega

/-- Every month has at least one day. -/
theorem daysInMonth_pos (y m : Nat) : 1 ≤ daysInMonth y m := by
  unfold daysInMonth
  split_ifs <;> omega

/-- Rolling to the next day preserves calendar validity. -/
theorem nextDay_valid (d : DateTime) (h : d.valid) : (nextDay d).valid := by
  obtain ⟨h1, h2, h3, h4, h5, h6, h7, h8⟩ := h
  unfold nextDay
  have hp1 := daysInMonth_pos d.year (d.month + 1)
  have hp2 := daysInMonth_pos (d.year + 1) 1
  split_ifs with hd hm <;>
    simp only [DateTime.valid] <;>
    exact ⟨by omega, by omega, by omega, by omega, by omega, by omega, by omega, by omega⟩

/-- Rolling forward any number of days preserves calendar validity. -/
theorem addDays_valid : ∀ (n : Nat) (d : DateTime), d.valid → (addDays d n).valid
  | 0, _, h => h
  | n + 1, d, h => addDays_valid n (nextDay d) (nextDay_valid d h)

/-- Whole-hour addition preserves calendar validity. -/
theorem addHours_valid (d : DateTime) (h : Nat) (hv : d.valid) :
    (d.addHours h).valid := by
  obtain ⟨h1, h2, h3, h4, h5, h6, h7, h8⟩ := hv
  unfold DateTime.addHours
  exact addDays_valid _ _ ⟨h1, h2, h3, h4, h5, Nat.mod_lt _ (by omega), h7, h8⟩

/-- A valid datetime whose year fits in four digits is width bounded. -/
theorem valid_widthBounded (d : DateTime) (hv : d.valid) (hy : d.year < 10000) :
    d.widthBounded := by
  obtain ⟨h1, h2, h3, h4, h5, h6, h7, h8⟩ := hv
  have := daysInMonth_le d.year d.month
  exact ⟨by omega, by omega, hy, by omega, by omega, by omega⟩

/-- A registered Owner. -/
def ownerRec : UserRec := ⟨"owner1", some ("boss"), "Owner One", some .OWNER, none⟩

/-- A registered plain user, the target of the C1 grant. -/
def targetRec : UserRec := ⟨"target1", none, "Target T", some .USER, none⟩

/-- A registered USER-level caller with no key. -/
def u1Rec : UserRec := ⟨"u1", some ("uu"), "User One", some .USER, none⟩

/-- State with a registered Owner and a registered plain target user. -/
def baseState : ServiceState := ⟨⟨[ownerRec, targetRec], [], []⟩, ⟨[], [], []⟩⟩

/-- The Owner as a requesting identity. -/
def ownerRu : RequestUser := ⟨"owner1", some ("boss"), "Owner One"⟩

/-- State with only the registered USER-level caller. -/
def userState : ServiceState := ⟨⟨[u1Rec], [], []⟩, ⟨[], [], []⟩⟩

/-- The USER-level caller as a requesting identity. -/
def u1Ru : RequestUser := ⟨"u1", some ("uu"), "User One"⟩

/-- The empty state: nobody registered, nothing deployed. -/
def emptyState : ServiceState := ⟨⟨[], [], []⟩, ⟨[], [], []⟩⟩

/-- An unregistered requesting identity. -/
def anonRu : RequestUser := ⟨"nobody", none, "No Body"⟩

/-- A fixed clock reading for the concrete runs. -/
def now0 : DateTime := ⟨2024, 1, 5, 3, 0, 0⟩

/-- A job request aimed at a hostname with no Worker record. -/
def ghostJob : JobRequestModel :=
  ⟨"u1", "ghost", "ubuntu:22.04", [⟨"GPU-abc"⟩], 4, "/workspace"⟩

/-- Claim C10: higher_permission is total on the three levels and maps
Owner to Owner itself (a fixed point at the strongest level), Admin to
Owner and User to Admin. -/
theorem c10_higher_permission_total_fixed_point :
    PermissionLevel.higher_permission .OWNER = .OWNER
      ∧ PermissionLevel.higher_permission .ADMIN = .OWNER
      ∧ PermissionLevel.higher_permission .USER = .ADMIN := by
  decide

/-- Claim C9, counterexample: the error-vs-success classification is not an
explicit boolean fixed at the code's definition — is_error coincides, at
every one of the ten defined codes, with the lexical test "the lowercased
member name contains the substring error" (api.py lines 37-39), i.e. the
classification is derived from the code's spelling. -/
theorem c9_is_error_is_name_derived :
    (ReturnCodes.is_error .DB_ERROR = pyIn ("error") (pyLower (ReturnCodes.name .DB_ERROR)))
      ∧ (ReturnCodes.is_error .PERMISSION_ERROR
          = pyIn ("error") (pyLower (ReturnCodes.name .PERMISSION_ERROR)))
      ∧ (ReturnCodes.is_error .ALREADY_REGISTERED_ERROR
          = pyIn ("error") (pyLower (ReturnCodes.name .ALREADY_REGISTERED_ERROR)))
      ∧ (ReturnCodes.is_error .NOT_REGISTERED_ERROR
          = pyIn ("error") (pyLower (ReturnCodes.name .NOT_REGISTERED_ERROR)))
      ∧ (ReturnCodes.is_error .KEY_MISSING_ERROR
          = pyIn ("error") (pyLower (ReturnCodes.name .KEY_MISSING_ERROR)))
      ∧ (ReturnCodes.is_error .WORKER_INFO
          = pyIn ("error") (pyLower (ReturnCodes.name .WORKER_INFO)))
      ∧ (ReturnCodes.is_error .REGISTRATION_SUCCESSFUL
          = pyIn ("error") (pyLower (ReturnCodes.name .REGISTRATION_SUCCESSFUL)))
      ∧ (ReturnCodes.is_error .PERMISSION_OK
          = pyIn ("error") (pyLower (ReturnCodes.name .PERMISSION_OK)))
      ∧ (ReturnCodes.is_error .DISPATCH_OK
          = pyIn ("error") (pyLower (ReturnCodes.name .DISPATCH_OK)))
      ∧ (ReturnCodes.is_error .RESOURCES
          = pyIn ("error") (pyLower (ReturnCodes.name .RESOURCES)))
      ∧ ReturnCodes.is_error .DB_ERROR = true
      ∧ ReturnCodes.is_error .PERMISSION_OK = false := by
  decide

/-- Claim C9, amended: although computed lexically from the member name,
is_error extensionally coincides with the explicit error/success
designation of the taxonomy for every defined code. -/
theorem c9_is_error_matches_taxonomy :
    ∀ c : ReturnCodes, ReturnCodes.is_error c = explicitErrorTag c := by
  intro c
  cases c <;> decide

/-- Claim C1: set_permission never grants. On a state where the Owner
caller passes the permission check at escalationTarget(ADMIN) = OWNER, the
handler returns PERMISSION_ERROR and leaves the registered target user's
level untouched, because the guard `if not permission_check(...)` treats
the None returned on success as failure (service.py line 89). -/
theorem c1_set_permission_rejects_authorized_grant :
    (permission_check baseState ownerRu (PermissionLevel.higher_permission .ADMIN)).2
        = Except.ok none
      ∧ set_permission baseState ownerRu ("target1") PermissionLevel.ADMIN
          = (baseState, Except.ok ⟨ReturnCodes.PERMISSION_ERROR, []⟩)
      ∧ baseState.db.storedLevel ("target1") = some PermissionLevel.USER := by
  decide

/-- Claim C3: entry points do not always return a well-formed envelope.
/ready raises AttributeError at ReturnCodes.READY on every request;
/check_ssh_key, /job_list and the success path of /set_ssh_key raise
AttributeError at KEY_CHECK, JOB_LIST and SET_KEY_SUCCESSFUL even for a
registered caller, because those members are absent from ReturnCodes. -/
theorem c3_endpoints_raise_attribute_error :
    (is_ready emptyState).2 = Except.error (PyExn.attributeError ("READY"))
      ∧ (check_ssh_key userState u1Ru).2
          = Except.error (PyExn.attributeError ("KEY_CHECK"))
      ∧ (job_list userState u1Ru).2
          = Except.error (PyExn.attributeError ("JOB_LIST"))
      ∧ (set_ssh_key userState u1Ru ("ssh-rsa AAAA")).2
          = Except.error (PyExn.attributeError ("SET_KEY_SUCCESSFUL")) := by
  decide

/-- Claim C4: a successful set_ssh_key cannot return the success code and
check_ssh_key cannot report: on a clean run for a registered user the key
IS persisted to the User record, but the call ends in AttributeError at
the undeclared SET_KEY_SUCCESSFUL member, and the follow-up check_ssh_key
ends in AttributeError at the undeclared KEY_CHECK member. -/
theorem c4_set_key_then_check_key_raise :
    userState.db.storedKey ("u1") = none
      ∧ (set_ssh_key userState u1Ru ("ssh-rsa AAAA")).2
          = Except.error (PyExn.attributeError ("SET_KEY_SUCCESSFUL"))
      ∧ (set_ssh_key userState u1Ru ("ssh-rsa AAAA")).1.db.storedKey ("u1")
          = some ("ssh-rsa AAAA")
      ∧ (check_ssh_key (set_ssh_key userState u1Ru ("ssh-rsa AAAA")).1 u1Ru).2
          = Except.error (PyExn.attributeError ("KEY_CHECK")) := by
  decide

/-- Claim C6: a job request naming an unknown worker hostname does not
produce a WorkerNotFound envelope (no such code exists in ReturnCodes):
the storage layer's DoesNotExist fault from Worker.get_by_id crosses the
service boundary uncaught. -/
theorem c6_dispatch_unknown_worker_raises :
    (dispatch userState u1Ru ghostJob now0).2
      = Except.error (PyExn.doesNotExist ("Worker")) := by
  decide

/-- Claim C2: the permission check admits the caller exactly when the
caller's stored level is numerically at most the required level (Owner=0
strongest) — which entails being registered, in particular whenever the
required level is USER — and an unregistered caller asked for USER-level
access receives NOT_REGISTERED_ERROR carrying the Admin/Owner username
hints computed on the upserted registry. -/
theorem c2_admit_iff_level_le (s : ServiceState) (ru : RequestUser)
    (req : PermissionLevel) :
    ((permission_check s ru req).2 = Except.ok none
        ↔ (∃ l, s.db.storedLevel ru.user_id = some l ∧ l.value ≤ req.value)
            ∧ (req = PermissionLevel.USER → s.db.is_registered ru.user_id = true))
      ∧ (req = PermissionLevel.USER → s.db.is_registered ru.user_id = false →
          (permission_check s ru req).2
            = Except.ok (some ⟨ReturnCodes.NOT_REGISTERED_ERROR,
                [("admins", PyValue.str (permission_check.formatAdmins
                    (s.db.update_details ru.user_id ru.username ru.full_name)))]⟩)) := by
  constructor
  · rw [permission_check_ok_none_iff]
    constructor
    · rintro ⟨l, hl, hle⟩
      refine ⟨⟨l, hl, hle⟩, fun _ => ?_⟩
      rw [DB.is_registered_eq, hl]
      rfl
    · rintro ⟨h, _⟩
      exact h
  · intro hU hreg
    subst hU
    have hreg' : (s.db.update_details ru.user_id ru.username ru.full_name).is_registered
        ru.user_id = false := by
      rw [DB.is_registered_eq, DB.storedLevel_update_details, ← DB.is_registered_eq]
      exact hreg
    dsimp only [permission_check]
    rw [hreg']
    rfl

/-- Instantiation of c2_admit_iff_level_le: on the empty state an
unregistered caller asking for USER-level access is turned away with the
NOT_REGISTERED_ERROR answer (empty admin hints). -/
theorem c2_admit_iff_level_le_witness :
    PermissionLevel.USER = PermissionLevel.USER
      ∧ emptyState.db.is_registered ("nobody") = false
      ∧ (permission_check emptyState anonRu PermissionLevel.USER).2
          = Except.ok (some ⟨ReturnCodes.NOT_REGISTERED_ERROR,
              [("admins", PyValue.str (""))]⟩) :=
  ⟨rfl, by decide,
    ((c2_admit_iff_level_le emptyState anonRu PermissionLevel.USER).2 rfl
        (by decide)).trans (by decide)⟩

/-- The check fails: the admission outcome is anything but Python None. -/
def gateFails (s : ServiceState) (ru : RequestUser) (lvl : PermissionLevel) : Prop :=
  (permission_check s ru lvl).2 ≠ Except.ok none

/-- The outcome a gated handler forwards when the check fails: a raised
exception propagates, a failure answer is returned as the response. The
third arm is never reached under gateFails. -/
def gateFailure (s : ServiceState) (ru : RequestUser) (lvl : PermissionLevel) :
    Except PyExn ManagerAnswer :=
  match (permission_check s ru lvl).2 with
  | .error e => .error e
  | .ok (some a) => .ok a
  | .ok none => .ok ⟨.PERMISSION_OK, []⟩

/-- The escalation target is never USER. -/
theorem higher_permission_ne_USER (lvl : PermissionLevel) :
    lvl.higher_permission ≠ PermissionLevel.USER := by
  cases lvl <;> decide

/-- Claim C5, counterexample: /join is an entry point with no permission
check at all — on the empty state, where every identity fails every
permission check (USER-level checks return NOT_REGISTERED_ERROR and
stronger checks raise), add_worker still writes the worker registry. -/
theorem c5_join_mutates_without_permission_check :
    (add_worker emptyState ⟨"node-a", "", "/data"⟩ ("203.0.113.7")).1.db.workers
        = [⟨"node-a", "203.0.113.7", "/data"⟩]
      ∧ emptyState.db.workers = []
      ∧ (permission_check emptyState anonRu PermissionLevel.USER).2 ≠ Except.ok none
      ∧ (permission_check emptyState anonRu PermissionLevel.ADMIN).2 ≠ Except.ok none := by
  decide

/-- Claim C5, amended: every entry point that takes a requester identity
runs the permission check first, and when the check fails the handler
forwards exactly the check's failure outcome, its only state effect being
the check's own contact-info upsert; /ready checks nothing (and mutates
nothing) and /join checks nothing and writes the registry unconditionally
(see the counterexample). -/
theorem c5_gated_handlers_fail_closed (s : ServiceState) (ru : RequestUser)
    (uid : String) (lvl : PermissionLevel) (key : String) (job : JobRequestModel)
    (now : DateTime) (b1 b2 : Bool) :
    (gateFails s ru PermissionLevel.ADMIN →
        register_user s ru uid
          = ((permission_check s ru PermissionLevel.ADMIN).1,
             gateFailure s ru PermissionLevel.ADMIN))
      ∧ (gateFails s ru lvl.higher_permission →
          set_permission s ru uid lvl
            = ((permission_check s ru lvl.higher_permission).1,
               gateFailure s ru lvl.higher_permission))
      ∧ (gateFails s ru PermissionLevel.USER →
          set_ssh_key s ru key
              = ((permission_check s ru PermissionLevel.USER).1,
                 gateFailure s ru PermissionLevel.USER)
            ∧ check_ssh_key s ru
              = ((permission_check s ru PermissionLevel.USER).1,
                 gateFailure s ru PermissionLevel.USER)
            ∧ dispatch s ru job now
              = ((permission_check s ru PermissionLevel.USER).1,
                 gateFailure s ru PermissionLevel.USER)
            ∧ job_list s ru
              = ((permission_check s ru PermissionLevel.USER).1,
                 gateFailure s ru PermissionLevel.USER)
            ∧ list_resources s ru b1 b2
              = ((permission_check s ru PermissionLevel.USER).1,
                 gateFailure s ru PermissionLevel.USER)) := by
  refine ⟨?_, ?_, ?_⟩
  · intro hgf
    rcases hpc : permission_check s ru PermissionLevel.ADMIN with ⟨s2, r⟩
    unfold gateFails at hgf
    rw [hpc] at hgf
    cases r with
    | error e => simp [register_user, gateFailure, hpc]
    | ok o =>
      cases o with
      | none => simp at hgf
      | some a => simp [register_user, gateFailure, hpc]
  · intro hgf
    rcases hpc : permission_check s ru lvl.higher_permission with ⟨s2, r⟩
    unfold gateFails at hgf
    rw [hpc] at hgf
    cases r with
    | error e => simp [set_permission, gateFailure, hpc]
    | ok o =>
      cases o with
      | none => simp at hgf
      | some a =>
        exact absurd (permission_check_some_eq_USER _ _ _ _ _ hpc)
          (higher_permission_ne_USER lvl)
  · intro hgf
    rcases hpc : permission_check s ru PermissionLevel.USER with ⟨s2, r⟩
    unfold gateFails at hgf
    rw [hpc] at hgf
    cases r with
    | error e =>
      refine ⟨?_, ?_, ?_, ?_, ?_⟩ <;>
        simp [set_ssh_key, check_ssh_key, dispatch, job_list, list_resources,
          gateFailure, hpc]
    | ok o =>
      cases o with
      | none => simp at hgf
      | some a =>
        refine ⟨?_, ?_, ?_, ?_, ?_⟩ <;>
          simp [set_ssh_key, check_ssh_key, dispatch, job_list, list_resources,
            gateFailure, hpc]

/-- Instantiation of c5_gated_handlers_fail_closed: on the empty state the
ADMIN-gated /register_user forwards the check's failure outcome. -/
theorem c5_gated_handlers_fail_closed_witness :
    gateFails emptyState anonRu PermissionLevel.ADMIN
      ∧ register_user emptyState anonRu ("x")
          = ((permission_check emptyState anonRu PermissionLevel.ADMIN).1,
             gateFailure emptyState anonRu PermissionLevel.ADMIN) :=
  ⟨by unfold gateFails; decide,
    (c5_gated_handlers_fail_closed emptyState anonRu ("x") PermissionLevel.ADMIN
        ("k") ghostJob now0 true false).1 (by unfold gateFails; decide)⟩

/-- Worker lookup is unaffected by the contact-info upsert. -/
theorem DB.findWorker_update_details (db : DB) (uid : String) (un : Option String)
    (fn : String) (hostname : String) :
    (db.update_details uid un fn).findWorker hostname = db.findWorker hostname := by
  unfold DB.findWorker
  rw [DB.update_details_workers]

/-- GPU inventory scoping is unaffected by the contact-info upsert. -/
theorem DB.gpus_by_workers_update_details (db : DB) (uid : String)
    (un : Option String) (fn : String) (ids : List String) :
    (db.update_details uid un fn).gpus_by_workers ids = db.gpus_by_workers ids := by
  unfold DB.gpus_by_workers
  rw [DB.update_details_workers, DB.update_details_gpus]

/-- Membership in the scoped inventory: exactly the registered workers
whose hostname is in the given set, each with its own GPUs. -/
theorem mem_gpus_by_workers (db : DB) (ids : List String) (w : Worker)
    (gs : List GPU) :
    (w, gs) ∈ db.gpus_by_workers ids
      ↔ (w ∈ db.workers ∧ w.hostname ∈ ids
          ∧ gs = db.gpus.filter (fun g => g.worker == w.hostname)) := by
  unfold DB.gpus_by_workers
  rw [List.mem_filterMap]
  constructor
  · rintro ⟨w', hw', hf⟩
    by_cases h : w'.hostname ∈ ids
    · rw [if_pos h] at hf
      simp only [Option.some.injEq, Prod.mk.injEq] at hf
      obtain ⟨hww, hgs⟩ := hf
      subst hww
      exact ⟨hw', h, hgs.symm⟩
    · rw [if_neg h] at hf
      simp at hf
  · rintro ⟨hw, hmem, hgs⟩
    exact ⟨w, hw, by rw [if_pos hmem, hgs]⟩

/-- Membership in the online hostname set: exactly the hostnames of nodes
reporting ready + active. -/
theorem mem_onlineHostnames (nodes : List Node) (h : String) :
    h ∈ onlineHostnames nodes
      ↔ ∃ n, n ∈ nodes ∧ n.state = "ready" ∧ n.availability = "active"
          ∧ n.hostname = h := by
  unfold onlineHostnames
  simp only [List.mem_map, List.mem_filter, Bool.and_eq_true, beq_iff_eq]
  constructor
  · rintro ⟨n, ⟨hn, hs, ha⟩, hh⟩
    exact ⟨n, hn, hs, ha, hh⟩
  · rintro ⟨n, hn, hs, ha, hh⟩
    exact ⟨n, ⟨hn, hs, ha⟩, hh⟩

/-- Claim C7: for a successful dispatch the submitted workload descriptor
carries exactly the requested GPU identifiers in the resource-selection
environment entries, a placement constraint equal to the target worker's
hostname, and an expiry label encoding now + duration hours as the
fixed-width timestamp, which decodes back to the same instant at second
resolution. -/
theorem c7_dispatch_descriptor_contents (s : ServiceState) (ru : RequestUser)
    (job : JobRequestModel) (now : DateTime) (w : Worker) (k : String)
    (cfg : Config)
    (H1 : (permission_check s ru PermissionLevel.USER).2 = Except.ok none)
    (H2 : s.db.findWorker job.worker_hostname = some w)
    (H3 : s.db.storedKey job.user_id = some k)
    (H4 : findConfig s.docker ("beer_ssh-key_" ++ job.user_id) = some cfg)
    (H5 : now.valid)
    (H6 : (now.addHours job.expected_duration).year < 10000) :
    ∃ svc : ServiceSpec,
      (dispatch s ru job now).2
          = Except.ok ⟨ReturnCodes.DISPATCH_OK, [("service.attrs", PyValue.service svc)]⟩
        ∧ svc.env = job.gpus.map (fun g => "DOCKER_RESOURCE_GPU=" ++ g.uuid)
        ∧ svc.constraints = ["node.hostname==" ++ w.hostname]
        ∧ List.lookup ("beer.expire") svc.labels
            = some ((now.addHours job.expected_duration).strftime_mdYHMS)
        ∧ parseTimestamp ((now.addHours job.expected_duration).strftime_mdYHMS)
            = some (now.addHours job.expected_duration) := by
  rcases hpc : permission_check s ru PermissionLevel.USER with ⟨s2, r⟩
  have hs2 : s2 = { s with db := s.db.update_details ru.user_id ru.username ru.full_name } := by
    have hfst := permission_check_fst s ru PermissionLevel.USER
    rw [hpc] at hfst
    exact hfst
  have hr : r = Except.ok none := by
    rw [hpc] at H1
    exact H1
  subst hr
  obtain ⟨u, hu, huk⟩ : ∃ u, s2.db.findUser job.user_id = some u
      ∧ u.public_ssh_key = some k := by
    have hk2 : s2.db.storedKey job.user_id = some k := by
      rw [hs2]
      show (s.db.update_details ru.user_id ru.username ru.full_name).storedKey
        job.user_id = some k
      rw [DB.storedKey_update_details]
      exact H3
    unfold DB.storedKey at hk2
    exact Option.bind_eq_some.mp hk2
  have huid : u.id = job.user_id := DB.findUser_id _ _ _ hu
  have hwge : s2.db.worker_get_by_id job.worker_hostname = Except.ok w := by
    unfold DB.worker_get_by_id
    rw [hs2]
    show (match (s.db.update_details ru.user_id ru.username ru.full_name).findWorker
      job.worker_hostname with
      | some w => Except.ok w
      | none => Except.error (PyExn.doesNotExist ("Worker"))) = Except.ok w
    rw [DB.findWorker_update_details, H2]
  have huge : s2.db.user_get_by_id job.user_id = Except.ok u := by
    unfold DB.user_get_by_id
    rw [hu]
  have hcfg2 : findConfig s2.docker ("beer_ssh-key_" ++ u.id) = some cfg := by
    rw [huid, hs2]
    exact H4
  have hround : parseTimestamp ((now.addHours job.expected_duration).strftime_mdYHMS)
      = some (now.addHours job.expected_duration) :=
    parseTimestamp_strftime _
      (valid_widthBounded _ (addHours_valid now job.expected_duration H5) H6)
  refine ⟨⟨job.image, job.user_id ++ "_" ++ now.strftime_mdYHMS, true,
      [("beer.user_id", job.user_id),
       ("beer.expire", (now.addHours job.expected_duration).strftime_mdYHMS)],
      ["node.hostname==" ++ w.hostname],
      job.gpus.map (fun g => "DOCKER_RESOURCE_GPU=" ++ g.uuid),
      [⟨cfg.id, cfg.name, "/root/.ssh/authorized_keys"⟩],
      [w.volumes_root ++ "/" ++ u.id ++ ":" ++ job.volume_mount ++ ":rw"]⟩,
    ?_, rfl, rfl, ?_, hround⟩
  · simp only [dispatch, hpc, hwge, huge, huk, Option.isNone_some, hcfg2,
      Bool.false_eq_true, if_false]
  · simp [List.lookup]

/-- A registered worker hosting one GPU. -/
def c7Worker : Worker := ⟨"gpu-node-1", "10.0.0.5", "/data"⟩

/-- The registered caller with a provisioned key. -/
def c7UserRec : UserRec := ⟨"u1", some ("uu"), "User One", some .USER, some ("ssh-rsa AAAA")⟩

/-- The provisioned per-user secret config. -/
def c7Cfg : Config := ⟨"beer_ssh-key_u1", "ssh-rsa AAAA", "beer_ssh-key_u1"⟩

/-- A state ready for a successful dispatch. -/
def c7State : ServiceState :=
  ⟨⟨[c7UserRec], [c7Worker], [⟨"GPU-abc", "gpu-node-1", true⟩]⟩,
   ⟨[c7Cfg], [], []⟩⟩

/-- A valid job request against c7State. -/
def c7Job : JobRequestModel :=
  ⟨"u1", "gpu-node-1", "ubuntu:22.04", [⟨"GPU-abc"⟩], 2, "/workspace"⟩

/-- Instantiation of c7_dispatch_descriptor_contents on a concrete
successful dispatch. -/
theorem c7_dispatch_descriptor_contents_witness :
    (permission_check c7State u1Ru PermissionLevel.USER).2 = Except.ok none
      ∧ c7State.db.findWorker c7Job.worker_hostname = some c7Worker
      ∧ c7State.db.storedKey c7Job.user_id = some ("ssh-rsa AAAA")
      ∧ findConfig c7State.docker ("beer_ssh-key_" ++ c7Job.user_id) = some c7Cfg
      ∧ now0.valid
      ∧ (now0.addHours c7Job.expected_duration).year < 10000
      ∧ ∃ svc : ServiceSpec,
          (dispatch c7State u1Ru c7Job now0).2
              = Except.ok ⟨ReturnCodes.DISPATCH_OK,
                  [("service.attrs", PyValue.service svc)]⟩
            ∧ svc.env = c7Job.gpus.map (fun g => "DOCKER_RESOURCE_GPU=" ++ g.uuid)
            ∧ svc.constraints = ["node.hostname==" ++ c7Worker.hostname]
            ∧ List.lookup ("beer.expire") svc.labels
                = some ((now0.addHours c7Job.expected_duration).strftime_mdYHMS)
            ∧ parseTimestamp ((now0.addHours c7Job.expected_duration).strftime_mdYHMS)
                = some (now0.addHours c7Job.expected_duration) :=
  ⟨by decide, by decide, by decide, by decide, by unfold DateTime.valid; decide,
   by decide,
   c7_dispatch_descriptor_contents c7State u1Ru c7Job now0 c7Worker ("ssh-rsa AAAA")
     c7Cfg (by decide) (by decide) (by decide) (by decide)
     (by unfold DateTime.valid; decide) (by decide)⟩

/-- Claim C8: list_resources ignores both flags, and its inventory is
scoped to exactly the registered workers whose node currently reports
ready + active, each paired with its own GPU records. -/
theorem c8_list_resources_online_filter (s : ServiceState) (ru : RequestUser)
    (b1 b2 b1' b2' : Bool)
    (H1 : (permission_check s ru PermissionLevel.USER).2 = Except.ok none) :
    list_resources s ru b1 b2 = list_resources s ru b1' b2'
      ∧ (list_resources s ru b1 b2).2
          = Except.ok ⟨ReturnCodes.RESOURCES,
              [("workers", PyValue.workersMap
                  ((s.db.gpus_by_workers (onlineHostnames s.docker.nodes)).map
                    (fun p => (p.1.hostname, p.1)))),
               ("gpus", PyValue.gpusMap
                  ((s.db.gpus_by_workers (onlineHostnames s.docker.nodes)).map
                    (fun p => (p.1.hostname, p.2))))]⟩
      ∧ ∀ w gs, (w, gs) ∈ s.db.gpus_by_workers (onlineHostnames s.docker.nodes)
          ↔ (w ∈ s.db.workers
              ∧ (∃ n, n ∈ s.docker.nodes ∧ n.state = "ready"
                  ∧ n.availability = "active" ∧ n.hostname = w.hostname)
              ∧ gs = s.db.gpus.filter (fun g => g.worker == w.hostname)) := by
  rcases hpc : permission_check s ru PermissionLevel.USER with ⟨s2, r⟩
  have hs2 : s2 = { s with db := s.db.update_details ru.user_id ru.username ru.full_name } := by
    have hfst := permission_check_fst s ru PermissionLevel.USER
    rw [hpc] at hfst
    exact hfst
  have hr : r = Except.ok none := by
    rw [hpc] at H1
    exact H1
  subst hr
  refine ⟨rfl, ?_, ?_⟩
  · simp only [list_resources, hpc, hs2, DB.gpus_by_workers_update_details]
  · intro w gs
    rw [mem_gpus_by_workers, mem_onlineHostnames]

/-- A state with one online and one offline worker node. -/
def c8State : ServiceState :=
  ⟨⟨[u1Rec],
    [⟨"gpu-node-1", "10.0.0.5", "/data"⟩, ⟨"gpu-node-2", "10.0.0.6", "/data"⟩],
    [⟨"GPU-abc", "gpu-node-1", true⟩, ⟨"GPU-def", "gpu-node-2", true⟩]⟩,
   ⟨[], [], [⟨"gpu-node-1", "ready", "active"⟩, ⟨"gpu-node-2", "down", "active"⟩]⟩⟩

/-- Instantiation of c8_list_resources_online_filter: the two flags do not
change the outcome on a concrete mixed online/offline state. -/
theorem c8_list_resources_online_filter_witness :
    (permission_check c8State u1Ru PermissionLevel.USER).2 = Except.ok none
      ∧ list_resources c8State u1Ru true false = list_resources c8State u1Ru false true :=
  ⟨by decide,
    (c8_list_resources_online_filter c8State u1Ru true false false true (by decide)).1⟩

end Beer
